import Mathlib

/-!
Shallow embedding of `src/main.py` (Cloud Function `run_bq_data_destruction`):
an HTTP handler that validates a JSON request `{protocol, connect_ids}` and
deletes the rows of a BigQuery table whose trimmed `Connect_ID` is among the
requested identifiers, reporting which identifiers were deleted and which were
not found.

Modelling conventions:
* JSON values are the inductive `JVal`; JSON numbers are modelled as integers
  (float formatting is orthogonal to the properties verified here).
* `request.get_json(silent=True)` is an `Option JVal`: `none` when the body
  does not parse as JSON.
* Python's `str()` / `repr()` are `pyStr` / `pyRepr`; `str.strip()` is
  `pyStrip` (whitespace characters stripped: space, tab, newline, carriage
  return, vertical tab, form feed).
* The BigQuery table is its column of `Connect_ID` values (`Store.rows`, raw,
  possibly untrimmed).  The two SQL statements of the source are embedded by
  their semantics over that column: `checkQueryResult` for the existence
  check `SELECT TRIM(Connect_ID) ... WHERE TRIM(Connect_ID) IN
  UNNEST(@connect_ids)` and `deleteQueryResult` for `DELETE ... WHERE
  TRIM(Connect_ID) IN UNNEST(@connect_ids)`.
* A query-engine fault while running either statement is injected through
  `Store.checkFault` / `Store.deleteFault` (the message the raised exception
  stringifies to); `none` means the query completes.
* Python set values (`existing_ids`, the `not_found` computation, the bound
  parameter `list(existing_ids)` of the delete statement) are `Finset String`:
  Python's set iteration order is unspecified, so the JSON arrays built from
  these sets carry exactly the underlying set in an unspecified order.
* Each issued query is recorded as a `BQEvent`, so "no delete statement is
  issued" and "no query is retried" are statements about the event trace.
* Exceptions that escape a function are `Except.error msg` with `msg` the
  Python `str(e)`; the only such exception reachable in `validate_request` is
  the `AttributeError` raised by `request_json.get(...)` on a non-dict body.
* `json_response` returns the 2-tuple `(json.dumps(message), status)`, so
  `validate_request`'s failure returns are 2-tuples just like its success
  return `(protocol, connect_ids)`: the handler's
  `isinstance(validation_result, tuple)` test is true on every non-raising
  path, its `else: return validation_result` branch is dead, and a validation
  failure is unpacked as `(protocol, connect_ids) = (json.dumps(error_body),
  400)`.  `validate_request` therefore returns `String × ValidatedIds`, with
  `jsonDumpsError` as the dumped first component of a failure.
-/

/-- A JSON value.  Numbers are modelled as integers. -/
inductive JVal where
  | jnull
  | jbool (b : Bool)
  | jnum (n : Int)
  | jstr (s : String)
  | jarr (elems : List JVal)
  | jobj (fields : List (String × JVal))

/-- Python's characters stripped by `str.strip()` (the ASCII ones). -/
def pyWhitespace (c : Char) : Bool :=
  c == ' ' || c == '\t' || c == '\n' || c == '\r' || c == '\x0b' || c == '\x0c'

/-- Drop the elements satisfying `p` from both ends of a list. -/
def stripList {α : Type} (p : α → Bool) (l : List α) : List α :=
  ((l.dropWhile p).reverse.dropWhile p).reverse

/-- Python `str.strip()`: drop leading and trailing whitespace. -/
def pyStrip (s : String) : String :=
  String.mk (stripList pyWhitespace s.data)

mutual

/-- Python `repr()` on a JSON value (string `repr` is exact for strings
without quote or backslash characters, which is the only use made of it). -/
def pyRepr : JVal → String
  | .jnull => "None"
  | .jbool true => "True"
  | .jbool false => "False"
  | .jnum n => toString n
  | .jstr s => "'" ++ s ++ "'"
  | .jarr es => "[" ++ String.intercalate ", " (pyReprList es) ++ "]"
  | .jobj fs => "\x7b" ++ String.intercalate ", " (pyReprFields fs) ++ "\x7d"

/-- The `repr`s of a list of JSON values. -/
def pyReprList : List JVal → List String
  | [] => []
  | v :: vs => pyRepr v :: pyReprList vs

/-- The `'key': repr(value)` items of a JSON object. -/
def pyReprFields : List (String × JVal) → List String
  | [] => []
  | (k, v) :: fs => ("'" ++ k ++ "': " ++ pyRepr v) :: pyReprFields fs

end

/-- Python `str()` on a JSON value (containers fall back to `repr`). -/
def pyStr : JVal → String
  | .jnull => "None"
  | .jbool true => "True"
  | .jbool false => "False"
  | .jnum n => toString n
  | .jstr s => s
  | .jarr es => pyRepr (.jarr es)
  | .jobj fs => pyRepr (.jobj fs)

/-- The Python type name of a JSON value, as it appears in the
`AttributeError` message raised by `value.get(...)`. -/
def pyTypeName : JVal → String
  | .jnull => "NoneType"
  | .jbool _ => "bool"
  | .jnum _ => "int"
  | .jstr _ => "str"
  | .jarr _ => "list"
  | .jobj _ => "dict"

/-- Python `dict.get(key)` on a JSON object (objects are assumed to have
distinct keys, as `json.loads` produces). -/
def dictGet (fields : List (String × JVal)) (key : String) : Option JVal :=
  (fields.find? (fun kv => kv.1 == key)).map (·.2)

/-- One entry of `supported_protocols`: the target dataset/table and the name
of the routine to run (the dict key `"function"` in the source). -/
structure ProtoCfg where
  dataset : String
  table : String
  function : String
deriving DecidableEq

/-- The source's `supported_protocols` dict, as an association list. -/
def supported_protocols : List (String × ProtoCfg) :=
  [("roi_physical_activity",
    { dataset := "ForTestingOnly", table := "roi_physical_activity",
      function := "delete_row" })]

/-- The state visible through the BigQuery client: the project name, the
`Connect_ID` column of the target table (raw values, possibly untrimmed), and
fault injection for each of the two statements the source issues (`some msg`
means the query raises an exception stringifying to `msg`). -/
structure Store where
  project : String
  rows : List String
  checkFault : Option String
  deleteFault : Option String
deriving DecidableEq

/-- A query issued against BigQuery, with its bound `@connect_ids` parameter.
The existence check binds the normalized input list; the delete statement
binds `list(existing_ids)`, a Python set, hence a `Finset`. -/
inductive BQEvent where
  | checkQuery (params : List String)
  | deleteQuery (params : Finset String)
deriving DecidableEq

/-- A response body, one constructor per JSON object shape the source builds
(`json.dumps` is modelled structurally). -/
inductive RespBody where
  | errorBody (error : String)
  | notFoundBody (message : String) (not_found : Finset String)
  | deletedBody (message : String) (deleted_ids : Finset String)
      (not_found : Finset String)
deriving DecidableEq

/-- A `(body, status)` pair, as returned by every handler path. -/
abbrev Response := RespBody × Nat

/-- The source's `json_response(message, status)` helper. -/
def json_response (message : RespBody) (status : Nat) : Response :=
  (message, status)

/-- Semantics of the existence check over the table column: the trimmed
`Connect_ID` of every row whose trimmed value is among the bound ids. -/
def checkQueryResult (rows : List String) (ids : List String) : List String :=
  (rows.map pyStrip).filter (fun c => decide (c ∈ ids))

/-- Semantics of the delete statement over the table column: the rows that
remain are those whose trimmed `Connect_ID` is not among the bound ids. -/
def deleteQueryResult (rows : List String) (params : Finset String) : List String :=
  rows.filter (fun c => decide (pyStrip c ∉ params))

/-- The source's `existing_ids`: the distinct set of identifiers returned by
the existence check (a Python set comprehension over the result rows). -/
def existingIds (rows : List String) (ids : List String) : Finset String :=
  (checkQueryResult rows ids).toFinset

/-- What one invocation of the handler (or of `delete_row`) produces: the
HTTP response, the queries issued, and the table column afterwards. -/
structure BQOutcome where
  resp : Response
  events : List BQEvent
  rows : List String
deriving DecidableEq

/-- The source's `delete_row(dataset, table, connect_ids)`: re-normalize the
ids, run the existence check, return early when nothing matches, otherwise
delete exactly the existing ids; any query fault is caught and becomes a 500
`Query execution failed` response. -/
def delete_row (dataset : String) (table : String) (connect_ids : List String)
    (st : Store) : BQOutcome :=
  let connect_ids := connect_ids.map pyStrip
  match st.checkFault with
  | some e =>
      { resp := json_response (.errorBody ("Query execution failed: " ++ e)) 500
        events := [.checkQuery connect_ids]
        rows := st.rows }
  | none =>
      let existing_ids : Finset String := existingIds st.rows connect_ids
      let not_found_ids : Finset String := connect_ids.toFinset \ existing_ids
      if existing_ids = ∅ then
        { resp := json_response
            (.notFoundBody "No matching Connect_IDs found" not_found_ids) 200
          events := [.checkQuery connect_ids]
          rows := st.rows }
      else
        match st.deleteFault with
        | some e =>
            { resp := json_response
                (.errorBody ("Query execution failed: " ++ e)) 500
              events := [.checkQuery connect_ids, .deleteQuery existing_ids]
              rows := st.rows }
        | none =>
            { resp := json_response
                (.deletedBody
                  ("Deleted " ++ toString existing_ids.card ++ " records from "
                    ++ st.project ++ "." ++ dataset ++ "." ++ table)
                  existing_ids not_found_ids) 200
              events := [.checkQuery connect_ids, .deleteQuery existing_ids]
              rows := deleteQueryResult st.rows existing_ids }

/-- Python `repr` of `list(d.keys())`, as interpolated into the unsupported
protocol message. -/
def pyKeysRepr (keys : List String) : String :=
  "[" ++ String.intercalate ", " (keys.map (fun k => "'" ++ k ++ "'")) ++ "]"

/-- Python `json.dumps` of the dict `\x7b"error": msg\x7d`.  Exact whenever
`msg` holds no character `json.dumps` escapes (no `"`, no backslash, no
control or non-ASCII character); every message built by `validate_request` is
such unless the caller-supplied protocol text itself contains one, and no
theorem below depends on that case. -/
def jsonDumpsError (msg : String) : String :=
  "\x7b\"error\": \"" ++ msg ++ "\"\x7d"

/-- The second component of the pair `validate_request` returns.  Python
leaves the two cases untagged — both are 2-tuples — so the tag only records
which Python value sits there: the `int` status of a `json_response` tuple on
a validation failure, or the normalized id `list` on success. -/
inductive ValidatedIds where
  | statusCode (status : Nat)
  | ids (connect_ids : List String)
deriving DecidableEq

/-- The source's `validate_request`, over the parsed body.  `json_response`
returns the pair `(json.dumps(message), status)`, so a validation failure is
returned as a 2-tuple exactly like the success value `(protocol,
connect_ids)`: the caller cannot tell them apart, and the first component of
a failure is the dumped error body (`jsonDumpsError`).  `Except.error` is the
`AttributeError` escaping from `request_json.get(...)` when the parsed body
is not a dict (the membership test `protocol not in supported_protocols` is
rendered through `lookup`). -/
def validate_request (registry : List (String × ProtoCfg))
    (request_json : Option JVal) :
    Except String (String × ValidatedIds) :=
  match request_json with
  | none => .ok (jsonDumpsError "Invalid JSON format", .statusCode 400)
  | some (.jobj fields) =>
      match dictGet fields "protocol" with
      | some (.jstr protocol) =>
          if (registry.lookup protocol).isNone then
            .ok (jsonDumpsError
              ("'" ++ protocol ++ "' is not a supported protocol. Allowed: "
                ++ pyKeysRepr (registry.map (·.1))), .statusCode 400)
          else
            match dictGet fields "connect_ids" with
            | some (.jarr xs) =>
                .ok (protocol, .ids (xs.map (fun v => pyStrip (pyStr v))))
            | _ => .ok (jsonDumpsError "connect_ids must be a list of strings",
                .statusCode 400)
      | _ => .ok (jsonDumpsError "Missing or invalid parameter: protocol (str)",
          .statusCode 400)
  | some rj => .error ("'" ++ pyTypeName rj ++ "' object has no attribute 'get'")

/-- The source's `run_bq_data_destruction` handler, over an explicit registry.
Because `validate_request` returns a 2-tuple on every non-raising path,
`isinstance(validation_result, tuple)` is true even for validation failures:
the `else: return validation_result` branch is dead code, the handler always
unpacks `(protocol, connect_ids)`, and a validation failure proceeds with the
dumped error body standing in for the protocol — the registry lookup misses
and the caller receives 400 `Unsupported protocol: <json-encoded error>`.
If a registry key did equal that first component while mapping to
`delete_row`, the routine would iterate the `int` status in its list
comprehension (outside its `try`) and the raised `TypeError` would be caught
by the top-level `except Exception` as a 500 whose error is `str(e)`. -/
def run_bq_data_destruction_core (registry : List (String × ProtoCfg))
    (request_json : Option JVal) (st : Store) : BQOutcome :=
  match validate_request registry request_json with
  | .error e =>
      { resp := json_response (.errorBody e) 500, events := [], rows := st.rows }
  | .ok (protocol, connect_ids) =>
      match registry.lookup protocol with
      | none =>
          { resp := json_response (.errorBody ("Unsupported protocol: " ++ protocol)) 400
            events := [], rows := st.rows }
      | some protocol_config =>
          if protocol_config.function == "delete_row" then
            match connect_ids with
            | .ids ids => delete_row protocol_config.dataset protocol_config.table ids st
            | .statusCode _ =>
                { resp := json_response (.errorBody "'int' object is not iterable") 500
                  events := [], rows := st.rows }
          else
            { resp := json_response
                (.errorBody ("Function '" ++ protocol_config.function ++ "' not implemented")) 500
              events := [], rows := st.rows }

/-- The deployed handler: `run_bq_data_destruction_core` over the source's
`supported_protocols` registry. -/
def run_bq_data_destruction (request_json : Option JVal) (st : Store) : BQOutcome :=
  run_bq_data_destruction_core supported_protocols request_json st

/-- Whether an event is an existence-check query. -/
def isCheckEvent : BQEvent → Bool
  | .checkQuery _ => true
  | .deleteQuery _ => false

/-- Whether an event is a delete statement. -/
def isDeleteEvent : BQEvent → Bool
  | .checkQuery _ => false
  | .deleteQuery _ => true

/-- A store whose table is empty, with no injected fault. -/
def stEmpty : Store :=
  { project := "P", rows := [], checkFault := none, deleteFault := none }

/-- A store whose table holds the single identifier `"1"`, no fault. -/
def stOne : Store :=
  { project := "P", rows := ["1"], checkFault := none, deleteFault := none }

/-- A store whose existence check raises a fault stringifying to `"boom"`. -/
def stCheckFault : Store :=
  { project := "P", rows := ["1"], checkFault := some "boom", deleteFault := none }

/-- A registry entry whose configured routine name is not implemented. -/
def regMask : List (String × ProtoCfg) :=
  [("roi_physical_activity",
    { dataset := "D", table := "T", function := "mask_fields" })]

/-- A request body with a registered protocol and `connect_ids = []`. -/
def bodyEmptyIds : JVal :=
  .jobj [("protocol", .jstr "roi_physical_activity"), ("connect_ids", .jarr [])]

/-- A request body with an unregistered protocol. -/
def bodyBogus : JVal :=
  .jobj [("protocol", .jstr "bogus"), ("connect_ids", .jarr [.jstr "1"])]

/-- A request body whose ids carry surrounding whitespace and a number. -/
def bodyWs : JVal :=
  .jobj [("protocol", .jstr "roi_physical_activity"),
         ("connect_ids", .jarr [.jstr " 123 ", .jnum 456])]

/-- The normalized twin of `bodyWs`: plain strings, no whitespace. -/
def bodyPlain : JVal :=
  .jobj [("protocol", .jstr "roi_physical_activity"),
         ("connect_ids", .jarr [.jstr "123", .jstr "456"])]

/-- A request body with a registered protocol and `connect_ids = ["1"]`. -/
def bodyOne : JVal :=
  .jobj [("protocol", .jstr "roi_physical_activity"), ("connect_ids", .jarr [.jstr "1"])]

/-! Helper lemmas. -/

/-- Dropping a prefix twice drops it once. -/
theorem dropWhile_self_idem {α : Type} (p : α → Bool) (l : List α) :
    (l.dropWhile p).dropWhile p = l.dropWhile p := by
  induction l with
  | nil => rfl
  | cons a t ih => cases h : p a <;> simp [List.dropWhile_cons, h, ih]

/-- A list whose head fails the predicate is unchanged by `dropWhile`. -/
theorem dropWhile_eq_self_of_head {α : Type} (p : α → Bool) (l : List α) (a : α)
    (h : l.head? = some a) (hp : p a = false) : l.dropWhile p = l := by
  cases l with
  | nil => rfl
  | cons b t =>
      have hb : b = a := by simpa using h
      subst hb
      simp [List.dropWhile_cons, hp]

/-- The head of `dropWhile p l` fails `p`. -/
theorem head_dropWhile_false {α : Type} (p : α → Bool) (l : List α) (a : α)
    (h : (l.dropWhile p).head? = some a) : p a = false := by
  have hmatch := List.head?_dropWhile_not p l
  rw [h] at hmatch
  exact hmatch

/-- Stripping both ends of a list is idempotent. -/
theorem stripList_idem {α : Type} (p : α → Bool) (l : List α) :
    stripList p (stripList p l) = stripList p l := by
  unfold stripList
  set m := l.dropWhile p with hm
  set k := m.reverse.dropWhile p with hk
  have hA : k.reverse.dropWhile p = k.reverse := by
    cases hk' : k.reverse.head? with
    | none =>
        have : k.reverse = [] := by
          cases hkr : k.reverse with
          | nil => rfl
          | cons x xs => rw [hkr] at hk'; simp at hk'
        rw [this]; rfl
    | some a =>
        have hsplit : m.reverse.takeWhile p ++ k = m.reverse :=
          List.takeWhile_append_dropWhile p m.reverse
        have hm2 : m = k.reverse ++ (m.reverse.takeWhile p).reverse := by
          have hr := congrArg List.reverse hsplit
          simpa [List.reverse_append] using hr.symm
        have hmh : m.head? = some a := by
          rw [hm2, List.head?_append, hk']; rfl
        have hpa : p a = false := by
          apply head_dropWhile_false p l a
          rw [← hm]; exact hmh
        exact dropWhile_eq_self_of_head p k.reverse a hk' hpa
  rw [hA, List.reverse_reverse, hk, dropWhile_self_idem]

/-- Python `strip` is idempotent. -/
theorem pyStrip_idem (s : String) : pyStrip (pyStrip s) = pyStrip s := by
  cases s with
  | mk l =>
      show String.mk (stripList pyWhitespace (stripList pyWhitespace l))
          = String.mk (stripList pyWhitespace l)
      rw [stripList_idem]

/-- Normalizing an already-normalized id list is the identity. -/
theorem map_pyStrip_idem (l : List String) :
    (l.map pyStrip).map pyStrip = l.map pyStrip := by
  induction l with
  | nil => rfl
  | cons a t ih => simp [pyStrip_idem, ih]

/-- Membership in the distinct result set of the existence check. -/
theorem mem_existingIds (rows ids : List String) (x : String) :
    x ∈ existingIds rows ids ↔ (∃ r ∈ rows, pyStrip r = x) ∧ x ∈ ids := by
  simp [existingIds, checkQueryResult, List.mem_toFinset, List.mem_filter,
    List.mem_map, decide_eq_true_iff]

/-- The existence check returns exactly the trimmed table ids that are among
the requested ids. -/
theorem existingIds_eq_inter (rows ids : List String) :
    existingIds rows ids = (rows.map pyStrip).toFinset ∩ ids.toFinset := by
  ext x
  simp [mem_existingIds, List.mem_toFinset, List.mem_map]

/-- `delete_row` when the existence check faults. -/
theorem delete_row_checkFault (dataset table : String) (ids : List String)
    (st : Store) (e : String) (h : st.checkFault = some e) :
    delete_row dataset table ids st
      = { resp := (.errorBody ("Query execution failed: " ++ e), 500),
          events := [.checkQuery (ids.map pyStrip)], rows := st.rows } := by
  simp [delete_row, h, json_response]

/-- `delete_row` when the existence check completes and finds nothing. -/
theorem delete_row_noMatch (dataset table : String) (ids : List String)
    (st : Store) (hc : st.checkFault = none)
    (h : existingIds st.rows (ids.map pyStrip) = ∅) :
    delete_row dataset table ids st
      = { resp := (.notFoundBody "No matching Connect_IDs found"
            ((ids.map pyStrip).toFinset), 200),
          events := [.checkQuery (ids.map pyStrip)], rows := st.rows } := by
  simp [delete_row, hc, h, json_response]

/-- `delete_row` when ids exist but the delete statement faults. -/
theorem delete_row_deleteFault (dataset table : String) (ids : List String)
    (st : Store) (e : String) (hc : st.checkFault = none)
    (hne : existingIds st.rows (ids.map pyStrip) ≠ ∅)
    (hd : st.deleteFault = some e) :
    delete_row dataset table ids st
      = { resp := (.errorBody ("Query execution failed: " ++ e), 500),
          events := [.checkQuery (ids.map pyStrip),
                     .deleteQuery (existingIds st.rows (ids.map pyStrip))],
          rows := st.rows } := by
  simp [delete_row, hc, hne, hd, json_response]

/-- `delete_row` on the successful delete path. -/
theorem delete_row_success (dataset table : String) (ids : List String)
    (st : Store) (hc : st.checkFault = none)
    (hne : existingIds st.rows (ids.map pyStrip) ≠ ∅)
    (hd : st.deleteFault = none) :
    delete_row dataset table ids st
      = { resp := (.deletedBody
            ("Deleted " ++ toString (existingIds st.rows (ids.map pyStrip)).card
              ++ " records from " ++ st.project ++ "." ++ dataset ++ "." ++ table)
            (existingIds st.rows (ids.map pyStrip))
            ((ids.map pyStrip).toFinset \ existingIds st.rows (ids.map pyStrip)), 200),
          events := [.checkQuery (ids.map pyStrip),
                     .deleteQuery (existingIds st.rows (ids.map pyStrip))],
          rows := deleteQueryResult st.rows (existingIds st.rows (ids.map pyStrip)) } := by
  simp [delete_row, hc, hne, hd, json_response]

/-! Claim theorems. -/

/-- C10: identifier normalization (string conversion then whitespace trim) is
idempotent — stripping a stripped string is the identity, re-normalizing the
handler's normalized list returns the same list, and feeding `delete_row` the
re-normalized list leaves its result unchanged. -/
theorem C10_theorem :
    (∀ s : String, pyStrip (pyStrip s) = pyStrip s)
    ∧ (∀ xs : List JVal,
        (xs.map (fun v => pyStrip (pyStr v))).map pyStrip
          = xs.map (fun v => pyStrip (pyStr v)))
    ∧ (∀ dataset table : String, ∀ ids : List String, ∀ st : Store,
        delete_row dataset table (ids.map pyStrip) st
          = delete_row dataset table ids st) := by
  refine ⟨pyStrip_idem, ?_, ?_⟩
  · intro xs
    induction xs with
    | nil => rfl
    | cons v vs ih => simp [pyStrip_idem, ih]
  · intro dataset table ids st
    unfold delete_row
    rw [map_pyStrip_idem]

/-- C9: when the existence check faults, `delete_row` returns HTTP 500 with
the fault-derived message, never issues the delete statement, and leaves the
table rows unchanged. -/
theorem C9_theorem (dataset table : String) (ids : List String) (st : Store)
    (e : String) (h : st.checkFault = some e) :
    delete_row dataset table ids st
      = { resp := (.errorBody ("Query execution failed: " ++ e), 500),
          events := [.checkQuery (ids.map pyStrip)], rows := st.rows } :=
  delete_row_checkFault dataset table ids st e h

/-- C9 witness: the theorem at the concrete faulting store. -/
theorem C9_witness :
    delete_row "D" "T" ["1"] stCheckFault
      = { resp := (.errorBody "Query execution failed: boom", 500),
          events := [.checkQuery ["1"]], rows := ["1"] } := by
  have h := C9_theorem "D" "T" ["1"] stCheckFault "boom" (by decide)
  exact h.trans (by decide)

/-- C3: when every requested identifier is absent from the table, the routine
returns HTTP 200 with the no-match result whose `not_found` is the
deduplicated input set, and no delete statement is issued. -/
theorem C3_theorem (dataset table : String) (ids : List String) (st : Store)
    (hc : st.checkFault = none)
    (habs : ∀ x ∈ ids.map pyStrip, x ∉ st.rows.map pyStrip) :
    delete_row dataset table ids st
      = { resp := (.notFoundBody "No matching Connect_IDs found"
            ((ids.map pyStrip).toFinset), 200),
          events := [.checkQuery (ids.map pyStrip)], rows := st.rows } := by
  apply delete_row_noMatch dataset table ids st hc
  rw [Finset.eq_empty_iff_forall_not_mem]
  intro x hx
  rw [mem_existingIds] at hx
  rcases hx with ⟨⟨r, hr, hrs⟩, hxi⟩
  exact habs x hxi (List.mem_map.2 ⟨r, hr, hrs⟩)

/-- C3 witness: the theorem at a concrete store and an absent identifier. -/
theorem C3_witness :
    delete_row "D" "T" ["9"] stOne
      = { resp := (.notFoundBody "No matching Connect_IDs found" {"9"}, 200),
          events := [.checkQuery ["9"]], rows := ["1"] } := by
  have h := C3_theorem "D" "T" ["9"] stOne (by decide) (by decide)
  exact h.trans (by decide)

/-- C2: when the existence check finds a non-empty set, the delete statement
is issued with bound parameter exactly that set — the normalized input ids
present in the (trimmed) table — and the response reports those as
`deleted_ids` and the absent input ids as `not_found`. -/
theorem C2_theorem (dataset table : String) (ids : List String) (st : Store)
    (hc : st.checkFault = none) (hd : st.deleteFault = none)
    (hne : existingIds st.rows (ids.map pyStrip) ≠ ∅) :
    (delete_row dataset table ids st).events
      = [.checkQuery (ids.map pyStrip),
         .deleteQuery ((ids.map pyStrip).toFinset ∩ (st.rows.map pyStrip).toFinset)]
    ∧ (delete_row dataset table ids st).resp
      = (.deletedBody
          ("Deleted "
            ++ toString ((ids.map pyStrip).toFinset ∩ (st.rows.map pyStrip).toFinset).card
            ++ " records from " ++ st.project ++ "." ++ dataset ++ "." ++ table)
          ((ids.map pyStrip).toFinset ∩ (st.rows.map pyStrip).toFinset)
          ((ids.map pyStrip).toFinset \ (st.rows.map pyStrip).toFinset), 200) := by
  have hE : existingIds st.rows (ids.map pyStrip)
      = (ids.map pyStrip).toFinset ∩ (st.rows.map pyStrip).toFinset := by
    rw [existingIds_eq_inter, Finset.inter_comm]
  have hNF : (ids.map pyStrip).toFinset \ existingIds st.rows (ids.map pyStrip)
      = (ids.map pyStrip).toFinset \ (st.rows.map pyStrip).toFinset := by
    rw [hE, Finset.sdiff_inter_self_left]
  rw [delete_row_success dataset table ids st hc hne hd]
  exact ⟨by rw [hE], by rw [hE, Finset.sdiff_inter_self_left]⟩

/-- C2 witness: the theorem at a table holding `"1"` and input
`["1", "3"]`. -/
theorem C2_witness :
    (delete_row "D" "T" ["1", "3"] stOne).events
      = [.checkQuery ["1", "3"], .deleteQuery {"1"}]
    ∧ (delete_row "D" "T" ["1", "3"] stOne).resp
      = (.deletedBody "Deleted 1 records from P.D.T" {"1"} {"3"}, 200) := by
  have h := C2_theorem "D" "T" ["1", "3"] stOne (by decide) (by decide) (by decide)
  exact ⟨h.1.trans (by decide), h.2.trans (by decide)⟩

/-- C8: any successful matched-deletion response partitions the deduplicated
normalized input: `deleted_ids` and `not_found` are disjoint, their union is
the input set, and the message's count is the cardinality of `deleted_ids`. -/
theorem C8_theorem (dataset table : String) (ids : List String) (st : Store)
    (msg : String) (E NF : Finset String)
    (h : (delete_row dataset table ids st).resp = (.deletedBody msg E NF, 200)) :
    E ∩ NF = ∅ ∧ E ∪ NF = (ids.map pyStrip).toFinset
    ∧ msg = "Deleted " ++ toString E.card ++ " records from "
        ++ st.project ++ "." ++ dataset ++ "." ++ table := by
  rcases hc : st.checkFault with _ | e
  · by_cases hne : existingIds st.rows (ids.map pyStrip) = ∅
    · rw [delete_row_noMatch dataset table ids st hc hne] at h
      simp at h
    · rcases hd : st.deleteFault with _ | e
      · rw [delete_row_success dataset table ids st hc hne hd] at h
        simp only [Prod.mk.injEq, RespBody.deletedBody.injEq] at h
        obtain ⟨⟨hmsg, hE, hNF⟩, -⟩ := h
        have hsub : existingIds st.rows (ids.map pyStrip) ⊆ (ids.map pyStrip).toFinset := by
          rw [existingIds_eq_inter]
          exact Finset.inter_subset_right
        subst hE
        subst hNF
        subst hmsg
        exact ⟨Finset.inter_sdiff_self _ _, Finset.union_sdiff_of_subset hsub, rfl⟩
      · rw [delete_row_deleteFault dataset table ids st e hc hne hd] at h
        simp at h
  · rw [delete_row_checkFault dataset table ids st e hc] at h
    simp at h

/-- C8 witness: the theorem at a concrete matched deletion. -/
theorem C8_witness :
    ({"1"} : Finset String) ∩ {"3"} = ∅
    ∧ ({"1"} : Finset String) ∪ {"3"} = (["1", "3"].map pyStrip).toFinset
    ∧ "Deleted 1 records from P.D.T"
        = "Deleted " ++ toString ({"1"} : Finset String).card ++ " records from "
          ++ stOne.project ++ "." ++ "D" ++ "." ++ "T" :=
  C8_theorem "D" "T" ["1", "3"] stOne "Deleted 1 records from P.D.T" {"1"} {"3"}
    (by decide)

/-- When the object body carries a string protocol that the registry knows
and a list `connect_ids`, `validate_request` succeeds with the normalized
ids. -/
theorem validate_request_inr (registry : List (String × ProtoCfg))
    (fields : List (String × JVal)) (p : String) (cfg : ProtoCfg) (xs : List JVal)
    (hp : dictGet fields "protocol" = some (.jstr p))
    (hl : registry.lookup p = some cfg)
    (hcids : dictGet fields "connect_ids" = some (.jarr xs)) :
    validate_request registry (some (.jobj fields))
      = .ok (p, .ids (xs.map (fun v => pyStrip (pyStr v)))) := by
  simp [validate_request, hp, hcids, hl]

/-- When validation succeeds and the protocol's configured routine is
`delete_row`, the handler dispatches to `delete_row` on the configured
dataset and table. -/
theorem run_core_to_delete_row (registry : List (String × ProtoCfg))
    (fields : List (String × JVal)) (p : String) (cfg : ProtoCfg) (xs : List JVal)
    (st : Store)
    (hp : dictGet fields "protocol" = some (.jstr p))
    (hl : registry.lookup p = some cfg)
    (hcids : dictGet fields "connect_ids" = some (.jarr xs))
    (hfn : cfg.function = "delete_row") :
    run_bq_data_destruction_core registry (some (.jobj fields)) st
      = delete_row cfg.dataset cfg.table (xs.map (fun v => pyStrip (pyStr v))) st := by
  have hval := validate_request_inr registry fields p cfg xs hp hl hcids
  unfold run_bq_data_destruction_core
  rw [hval]
  simp [hl, hfn]

/-- C1: the claim fails — a registered protocol with `connect_ids = []`
passes validation (there is no emptiness check in the code), the handler
returns HTTP 200 with the no-match result, and the deletion routine runs: it
issues the existence query (with an empty bound list) and no delete. -/
theorem C1_counterexample :
    run_bq_data_destruction (some bodyEmptyIds) stEmpty
      = { resp := (.notFoundBody "No matching Connect_IDs found" ∅, 200),
          events := [.checkQuery []], rows := [] }
    ∧ (run_bq_data_destruction (some bodyEmptyIds) stEmpty).resp.2 ≠ 400
    ∧ (run_bq_data_destruction (some bodyEmptyIds) stEmpty).events ≠ [] := by
  refine ⟨by decide, by decide, by decide⟩

/-- C1 amended: for every request whose body is a JSON object with protocol
`"roi_physical_activity"` and `connect_ids = []`, and whose existence query
completes, the handler returns HTTP 200 with the no-match result and an empty
`not_found`; the routine is invoked, issues the existence check, and issues
no delete statement. -/
theorem C1_theorem (st : Store) (fields : List (String × JVal))
    (hp : dictGet fields "protocol" = some (.jstr "roi_physical_activity"))
    (hcids : dictGet fields "connect_ids" = some (.jarr []))
    (hc : st.checkFault = none) :
    run_bq_data_destruction (some (.jobj fields)) st
      = { resp := (.notFoundBody "No matching Connect_IDs found" ∅, 200),
          events := [.checkQuery []], rows := st.rows } := by
  have hdisp := run_core_to_delete_row supported_protocols fields
    "roi_physical_activity"
    { dataset := "ForTestingOnly", table := "roi_physical_activity",
      function := "delete_row" } [] st hp (by rfl) hcids rfl
  have hempty : existingIds st.rows (([] : List String).map pyStrip) = ∅ := by
    simp [existingIds, checkQueryResult]
  have hnm := delete_row_noMatch "ForTestingOnly" "roi_physical_activity" [] st hc hempty
  rw [run_bq_data_destruction, hdisp]
  simpa using hnm

/-- C1 witness for the amended theorem: a concrete object body with the
registered protocol and empty ids over a one-row table. -/
theorem C1_witness :
    run_bq_data_destruction
        (some (.jobj [("protocol", .jstr "roi_physical_activity"),
                      ("connect_ids", .jarr [])])) stOne
      = { resp := (.notFoundBody "No matching Connect_IDs found" ∅, 200),
          events := [.checkQuery []], rows := stOne.rows } :=
  C1_theorem stOne
    [("protocol", .jstr "roi_physical_activity"), ("connect_ids", .jarr [])]
    rfl rfl rfl

/-- C4: the source contradicts the claimed (and spec-intended) validation
responses.  `json_response` returns a `(body, status)` tuple, so
`isinstance(validation_result, tuple)` is true for validation failures too:
the handler unpacks the failure tuple, the registry lookup misses on the
dumped error body, and the caller receives 400 `Unsupported protocol:
<json-encoded original error>` instead of the claimed enumerating message.
Evaluated here at `\x7b"protocol": "bogus", "connect_ids": ["1"]\x7d`; a body
parsing to non-object JSON additionally yields 500, not 400. -/
theorem C4_theorem :
    (run_bq_data_destruction (some bodyBogus) stEmpty).resp
      = (.errorBody ("Unsupported protocol: " ++ jsonDumpsError
          "'bogus' is not a supported protocol. Allowed: ['roi_physical_activity']"), 400)
    ∧ (run_bq_data_destruction (some bodyBogus) stEmpty).resp.1
        ≠ .errorBody "'bogus' is not a supported protocol. Allowed: ['roi_physical_activity']"
    ∧ (run_bq_data_destruction (some (.jarr [])) stEmpty).resp
      = (.errorBody "'list' object has no attribute 'get'", 500) := by
  refine ⟨by decide, by decide, by decide⟩

/-- C5: the claim fails — after a first call deletes `{"1"}` out of input
`["1", "3"]`, the second identical call reports `not_found = {"1", "3"}`
(the whole deduplicated input), not the first call's `deleted_ids =
{"1"}`. -/
theorem C5_counterexample :
    (delete_row "D" "T" ["1", "3"] stOne).resp
      = (.deletedBody "Deleted 1 records from P.D.T" {"1"} {"3"}, 200)
    ∧ (delete_row "D" "T" ["1", "3"]
        { stOne with rows := (delete_row "D" "T" ["1", "3"] stOne).rows }).resp
      = (.notFoundBody "No matching Connect_IDs found" {"1", "3"}, 200)
    ∧ ({"1", "3"} : Finset String) ≠ {"1"} := by
  refine ⟨by decide, by decide, by decide⟩

/-- C5 amended: running the routine twice with the same ids (no faults)
makes the second call return the no-match result — empty deletions, no
delete statement — with `not_found` equal to the full deduplicated input
set, a superset of the first call's `deleted_ids`. -/
theorem C5_theorem (dataset table : String) (ids : List String) (st : Store)
    (hc : st.checkFault = none) (hd : st.deleteFault = none) :
    delete_row dataset table ids
        { st with rows := (delete_row dataset table ids st).rows }
      = { resp := (.notFoundBody "No matching Connect_IDs found"
            ((ids.map pyStrip).toFinset), 200),
          events := [.checkQuery (ids.map pyStrip)],
          rows := (delete_row dataset table ids st).rows }
    ∧ existingIds st.rows (ids.map pyStrip) ⊆ (ids.map pyStrip).toFinset := by
  have hsub : existingIds st.rows (ids.map pyStrip) ⊆ (ids.map pyStrip).toFinset := by
    rw [existingIds_eq_inter]
    exact Finset.inter_subset_right
  refine ⟨?_, hsub⟩
  by_cases hne : existingIds st.rows (ids.map pyStrip) = ∅
  · rw [delete_row_noMatch dataset table ids st hc hne]
    exact delete_row_noMatch dataset table ids _ hc hne
  · rw [delete_row_success dataset table ids st hc hne hd]
    have hempty2 : existingIds
        (deleteQueryResult st.rows (existingIds st.rows (ids.map pyStrip)))
        (ids.map pyStrip) = ∅ := by
      rw [Finset.eq_empty_iff_forall_not_mem]
      intro x hx
      rw [mem_existingIds] at hx
      rcases hx with ⟨⟨r, hr, hrs⟩, hxi⟩
      rw [deleteQueryResult, List.mem_filter, decide_eq_true_iff] at hr
      apply hr.2
      rw [hrs, mem_existingIds]
      exact ⟨⟨r, hr.1, hrs⟩, hxi⟩
    exact delete_row_noMatch dataset table ids _ hc hempty2

/-- C5 witness for the amended theorem: the two-call scenario over the
one-row table. -/
theorem C5_witness :
    delete_row "D" "T" ["1", "3"]
        { stOne with rows := (delete_row "D" "T" ["1", "3"] stOne).rows }
      = { resp := (.notFoundBody "No matching Connect_IDs found"
            (((["1", "3"] : List String).map pyStrip).toFinset), 200),
          events := [.checkQuery ((["1", "3"] : List String).map pyStrip)],
          rows := (delete_row "D" "T" ["1", "3"] stOne).rows }
    ∧ existingIds stOne.rows ((["1", "3"] : List String).map pyStrip)
        ⊆ ((["1", "3"] : List String).map pyStrip).toFinset :=
  C5_theorem "D" "T" ["1", "3"] stOne rfl rfl

/-- C6: each element of `connect_ids` is stringified and trimmed before any
downstream use, so two object bodies with the same protocol entry whose id
lists normalize equally produce identical outcomes. -/
theorem C6_theorem (st : Store) (f1 f2 : List (String × JVal)) (xs ys : List JVal)
    (hp : dictGet f1 "protocol" = dictGet f2 "protocol")
    (h1 : dictGet f1 "connect_ids" = some (.jarr xs))
    (h2 : dictGet f2 "connect_ids" = some (.jarr ys))
    (hxy : xs.map (fun v => pyStrip (pyStr v)) = ys.map (fun v => pyStrip (pyStr v))) :
    run_bq_data_destruction (some (.jobj f1)) st
      = run_bq_data_destruction (some (.jobj f2)) st := by
  have hv : validate_request supported_protocols (some (.jobj f1))
      = validate_request supported_protocols (some (.jobj f2)) := by
    simp only [validate_request, h1, h2, ← hp]
    rcases dictGet f1 "protocol" with _ | v
    · rfl
    · cases v with
      | jstr p =>
          dsimp only
          by_cases hl : (supported_protocols.lookup p).isNone = true
          · rw [if_pos hl, if_pos hl]
          · rw [if_neg hl, if_neg hl]
            simp only [hxy]
      | jnull => rfl
      | jbool b => rfl
      | jnum n => rfl
      | jarr es => rfl
      | jobj fs => rfl
  unfold run_bq_data_destruction run_bq_data_destruction_core
  rw [hv]

/-- C6 witness: `[" 123 ", 456]` and `["123", "456"]` give identical
outcomes. -/
theorem C6_witness :
    run_bq_data_destruction (some bodyWs) stEmpty
      = run_bq_data_destruction (some bodyPlain) stEmpty :=
  C6_theorem stEmpty
    [("protocol", .jstr "roi_physical_activity"),
     ("connect_ids", .jarr [.jstr " 123 ", .jnum 456])]
    [("protocol", .jstr "roi_physical_activity"),
     ("connect_ids", .jarr [.jstr "123", .jstr "456"])]
    [.jstr " 123 ", .jnum 456] [.jstr "123", .jstr "456"]
    rfl rfl rfl (by decide)

/-- Safety facts about every `delete_row` outcome: the status is 200 or 500,
each of the two statements is issued at most once, and a faulting query
yields the fault-derived 500 response. -/
theorem delete_row_props (d t : String) (ids : List String) (st : Store) :
    ((delete_row d t ids st).resp.2 = 200 ∨ (delete_row d t ids st).resp.2 = 500)
    ∧ (delete_row d t ids st).events.countP isCheckEvent ≤ 1
    ∧ (delete_row d t ids st).events.countP isDeleteEvent ≤ 1
    ∧ (∀ e, st.checkFault = some e →
        (delete_row d t ids st).resp
          = (.errorBody ("Query execution failed: " ++ e), 500))
    ∧ (∀ e E, st.deleteFault = some e →
        BQEvent.deleteQuery E ∈ (delete_row d t ids st).events →
        (delete_row d t ids st).resp
          = (.errorBody ("Query execution failed: " ++ e), 500)) := by
  rcases hcf : st.checkFault with _ | e0
  · by_cases hne : existingIds st.rows (ids.map pyStrip) = ∅
    · rw [delete_row_noMatch d t ids st hcf hne]
      refine ⟨Or.inl rfl, ?_, ?_, ?_, ?_⟩
      · simp [List.countP_cons, List.countP_nil, isCheckEvent]
      · simp [List.countP_cons, List.countP_nil, isDeleteEvent]
      · intro e he
        exact Option.noConfusion he
      · intro e E he hmem
        simp at hmem
    · rcases hdf : st.deleteFault with _ | e1
      · rw [delete_row_success d t ids st hcf hne hdf]
        refine ⟨Or.inl rfl, ?_, ?_, ?_, ?_⟩
        · simp [List.countP_cons, List.countP_nil, isCheckEvent]
        · simp [List.countP_cons, List.countP_nil, isDeleteEvent]
        · intro e he
          exact Option.noConfusion he
        · intro e E he hmem
          exact Option.noConfusion he
      · rw [delete_row_deleteFault d t ids st e1 hcf hne hdf]
        refine ⟨Or.inr rfl, ?_, ?_, ?_, ?_⟩
        · simp [List.countP_cons, List.countP_nil, isCheckEvent]
        · simp [List.countP_cons, List.countP_nil, isDeleteEvent]
        · intro e he
          exact Option.noConfusion he
        · intro e E he hmem
          injection he with h2
          subst h2
          rfl
  · rw [delete_row_checkFault d t ids st e0 hcf]
    refine ⟨Or.inr rfl, ?_, ?_, ?_, ?_⟩
    · simp [List.countP_cons, List.countP_nil, isCheckEvent]
    · simp [List.countP_cons, List.countP_nil, isDeleteEvent]
    · intro e he
      injection he with h2
      subst h2
      rfl
    · intro e E he hmem
      simp at hmem

/-- C7: for every registry, request and store the handler yields a structured
response with status 200, 400 or 500; neither query is ever issued twice (no
retry); a fault in either query surfaces as a 500 whose message is derived
from the fault; and a registered but unimplemented operation kind yields the
500 "not implemented" response. -/
theorem C7_theorem (registry : List (String × ProtoCfg)) (rj : Option JVal)
    (st : Store) :
    ((run_bq_data_destruction_core registry rj st).resp.2 = 200
      ∨ (run_bq_data_destruction_core registry rj st).resp.2 = 400
      ∨ (run_bq_data_destruction_core registry rj st).resp.2 = 500)
    ∧ (run_bq_data_destruction_core registry rj st).events.countP isCheckEvent ≤ 1
    ∧ (run_bq_data_destruction_core registry rj st).events.countP isDeleteEvent ≤ 1
    ∧ (∀ e, st.checkFault = some e →
        (run_bq_data_destruction_core registry rj st).events ≠ [] →
        (run_bq_data_destruction_core registry rj st).resp
          = (.errorBody ("Query execution failed: " ++ e), 500))
    ∧ (∀ e E, st.deleteFault = some e →
        BQEvent.deleteQuery E ∈ (run_bq_data_destruction_core registry rj st).events →
        (run_bq_data_destruction_core registry rj st).resp
          = (.errorBody ("Query execution failed: " ++ e), 500))
    ∧ (∀ p cids cfg, validate_request registry rj = .ok (p, .ids cids) →
        registry.lookup p = some cfg → cfg.function ≠ "delete_row" →
        (run_bq_data_destruction_core registry rj st).resp
          = (.errorBody ("Function '" ++ cfg.function ++ "' not implemented"), 500)) := by
  rcases hv : validate_request registry rj with e | ⟨p, cids⟩
  · have hrun : run_bq_data_destruction_core registry rj st
        = { resp := (.errorBody e, 500), events := [], rows := st.rows } := by
      unfold run_bq_data_destruction_core
      rw [hv]
      rfl
    rw [hrun]
    refine ⟨Or.inr (Or.inr rfl), by simp, by simp, ?_, ?_, ?_⟩
    · intro e' he' hne
      exact absurd rfl hne
    · intro e' E he' hmem
      simp at hmem
    · intro p' cids' cfg' hval hl' hfn'
      exact Except.noConfusion hval
  · rcases hl : registry.lookup p with _ | cfg
    · have hrun : run_bq_data_destruction_core registry rj st
          = { resp := (.errorBody ("Unsupported protocol: " ++ p), 400),
              events := [], rows := st.rows } := by
        unfold run_bq_data_destruction_core
        rw [hv]
        dsimp only
        rw [hl]
        rfl
      rw [hrun]
      refine ⟨Or.inr (Or.inl rfl), by simp, by simp, ?_, ?_, ?_⟩
      · intro e' he' hne
        exact absurd rfl hne
      · intro e' E he' hmem
        simp at hmem
      · intro p' cids' cfg' hval hl' hfn'
        injection hval with h1
        injection h1 with hp2 hc2
        subst hp2
        rw [hl] at hl'
        exact Option.noConfusion hl'
    · by_cases hfn : cfg.function = "delete_row"
      · rcases cids with n | ids
        · have hrun : run_bq_data_destruction_core registry rj st
              = { resp := (.errorBody "'int' object is not iterable", 500),
                  events := [], rows := st.rows } := by
            unfold run_bq_data_destruction_core
            rw [hv]
            dsimp only
            rw [hl]
            dsimp only
            rw [if_pos (beq_iff_eq.mpr hfn)]
            rfl
          rw [hrun]
          refine ⟨Or.inr (Or.inr rfl), by simp, by simp, ?_, ?_, ?_⟩
          · intro e' he' hne
            exact absurd rfl hne
          · intro e' E he' hmem
            simp at hmem
          · intro p' cids' cfg' hval hl' hfn'
            injection hval with h1
            injection h1 with hp2 hc2
            exact ValidatedIds.noConfusion hc2
        · have hrun : run_bq_data_destruction_core registry rj st
              = delete_row cfg.dataset cfg.table ids st := by
            unfold run_bq_data_destruction_core
            rw [hv]
            dsimp only
            rw [hl]
            dsimp only
            rw [if_pos (beq_iff_eq.mpr hfn)]
          have hdp := delete_row_props cfg.dataset cfg.table ids st
          rw [hrun]
          refine ⟨?_, hdp.2.1, hdp.2.2.1, ?_, ?_, ?_⟩
          · rcases hdp.1 with h | h
            · exact Or.inl h
            · exact Or.inr (Or.inr h)
          · intro e' he' hne
            exact hdp.2.2.2.1 e' he'
          · intro e' E he' hmem
            exact hdp.2.2.2.2 e' E he' hmem
          · intro p' cids' cfg' hval hl' hfn'
            injection hval with h1
            injection h1 with hp2 hc2
            subst hp2
            rw [hl] at hl'
            injection hl' with hcfg
            subst hcfg
            exact absurd hfn hfn'
      · have hrun : run_bq_data_destruction_core registry rj st
            = { resp := (.errorBody ("Function '" ++ cfg.function ++ "' not implemented"), 500),
                events := [], rows := st.rows } := by
          unfold run_bq_data_destruction_core
          rw [hv]
          dsimp only
          rw [hl]
          dsimp only
          rw [if_neg (fun hh => hfn (eq_of_beq hh))]
          rfl
        rw [hrun]
        refine ⟨Or.inr (Or.inr rfl), by simp, by simp, ?_, ?_, ?_⟩
        · intro e' he' hne
          exact absurd rfl hne
        · intro e' E he' hmem
          simp at hmem
        · intro p' cids' cfg' hval hl' hfn'
          injection hval with h1
          injection h1 with hp2 hc2
          subst hp2
          rw [hl] at hl'
          injection hl' with hcfg
          subst hcfg
          rfl

/-- C7 witness: a registered-but-unimplemented operation kind yields the 500
"not implemented" response, and a faulting existence check yields the
fault-derived 500. -/
theorem C7_witness :
    (run_bq_data_destruction_core regMask (some bodyOne) stEmpty).resp
      = (.errorBody "Function 'mask_fields' not implemented", 500)
    ∧ (run_bq_data_destruction_core supported_protocols (some bodyOne) stCheckFault).resp
      = (.errorBody "Query execution failed: boom", 500) := by
  constructor
  · have h := (C7_theorem regMask (some bodyOne) stEmpty).2.2.2.2.2
      "roi_physical_activity" ["1"]
      { dataset := "D", table := "T", function := "mask_fields" }
      rfl rfl (by decide)
    exact h.trans (by decide)
  · have h := (C7_theorem supported_protocols (some bodyOne) stCheckFault).2.2.2.1
      "boom" rfl (by decide)
    exact h
